import Mathlib

/-
  Verification of the reservation engine of the Hotel Booking System
  (src/Hotel_Booking_System.py).

  Calendar dates are modelled as natural numbers (the source compares
  `date` values only with the total order, so any linearly ordered
  carrier is faithful; Nat keeps everything decidable). Money amounts
  are modelled as integers (the source stores REAL values but the
  engine only ever inserts them; no arithmetic on amounts is verified
  here). The sqlite tables Rooms, Bookings, Payments become lists of
  records; AUTOINCREMENT primary keys become explicit counters.
  Fields that the reservation logic never reads (price, description,
  timestamps, customer table) are omitted.
-/

namespace Hotel

/-- Booking status strings used by the source:
Pending, Confirmed, Completed, Cancelled. -/
inductive Status where
  | Pending
  | Confirmed
  | Completed
  | Cancelled
deriving DecidableEq, Repr

/-- Room type strings used by the source: Single, Double, Suite. -/
inductive RoomType where
  | Single
  | Double
  | Suite
deriving DecidableEq, Repr

/-- Room status strings used by the source:
Available, Booked, Maintenance. -/
inductive RoomStatus where
  | Available
  | Booked
  | Maintenance
deriving DecidableEq, Repr

/-- Payment mode strings used by the source:
Card, UPI, Cash, NetBanking. -/
inductive PayMode where
  | Card
  | UPI
  | Cash
  | NetBanking
deriving DecidableEq, Repr

/-- A row of the Rooms table (fields read by the engine). -/
structure Room where
  room_id : Nat
  room_type : RoomType
  status : RoomStatus
deriving DecidableEq, Repr

/-- A row of the Bookings table (fields read by the engine). -/
structure Booking where
  booking_id : Nat
  customer_id : Nat
  room_id : Nat
  check_in : Nat
  check_out : Nat
  status : Status
deriving DecidableEq, Repr

/-- A row of the Payments table (fields read by the engine). -/
structure Payment where
  payment_id : Nat
  booking_id : Nat
  amount : Int
  payment_mode : PayMode
deriving DecidableEq, Repr

/-- The sqlite database state seen by the engine: the three tables and
the AUTOINCREMENT counters for booking and payment ids. -/
structure DBState where
  rooms : List Room
  bookings : List Booking
  payments : List Payment
  next_booking_id : Nat
  next_payment_id : Nat
deriving DecidableEq, Repr

/-- Source `dates_overlap(a_start, a_end, b_start, b_end)`:
`not (a_end <= b_start or b_end <= a_start)`. -/
def dates_overlap (a_start a_end b_start b_end : Nat) : Bool :=
  !(decide (a_end ≤ b_start) || decide (b_end ≤ a_start))

/-- The SQL condition `status IN ('Pending', 'Confirmed')` used by
`check_availability`. -/
def is_active (b : Booking) : Bool :=
  decide (b.status = Status.Pending) || decide (b.status = Status.Confirmed)

/-- Source `check_availability(room_id, check_in, check_out)`: selects the
bookings of the room whose status is Pending or Confirmed and returns
False as soon as one of them overlaps the requested range, True
otherwise. -/
def check_availability (s : DBState) (room_id check_in check_out : Nat) : Bool :=
  (s.bookings.filter (fun b => decide (b.room_id = room_id) && is_active b)).all
    (fun b => !dates_overlap check_in check_out b.check_in b.check_out)

/-- The optional room-type filter of `find_available_rooms`: the source
applies `room_type = ?` only when a type other than All was supplied. -/
def room_matches (room_type : Option RoomType) (r : Room) : Bool :=
  match room_type with
  | some t => decide (r.room_type = t)
  | none => true

/-- Source `find_available_rooms(check_in, check_out, room_type)`: the SQL
query keeps the rooms with `status != 'Maintenance'` (and the optional
type filter), then the loop keeps those for which `check_availability`
holds. -/
def find_available_rooms (s : DBState) (check_in check_out : Nat)
    (room_type : Option RoomType) : List Room :=
  (s.rooms.filter
      (fun r => !decide (r.status = RoomStatus.Maintenance) && room_matches room_type r)).filter
    (fun r => check_availability s r.room_id check_in check_out)

/-- The only error of the search flow: the source refuses the range with
the message Check-out must be after check-in date. -/
inductive RangeError where
  | InvalidRange
deriving DecidableEq, Repr

/-- The `search` handler of the room-search screen: rejects `end <= start`
before calling `find_available_rooms`. -/
def search (s : DBState) (check_in check_out : Nat) (room_type : Option RoomType) :
    Except RangeError (List Room) :=
  if check_out ≤ check_in then Except.error RangeError.InvalidRange
  else Except.ok (find_available_rooms s check_in check_out room_type)

/-- Source `create_booking(customer_id, room_id, check_in, check_out)`:
inserts a Bookings row with status Pending and returns its id. -/
def create_booking (s : DBState) (customer_id room_id check_in check_out : Nat) :
    DBState × Nat :=
  let bid := s.next_booking_id
  ({ s with
      bookings :=
        s.bookings ++ [⟨bid, customer_id, room_id, check_in, check_out, Status.Pending⟩],
      next_booking_id := bid + 1 },
    bid)

/-- The only error of the booking flow: the source shows Room no longer
available when the re-check fails. -/
inductive BookError where
  | RoomUnavailable
deriving DecidableEq, Repr

/-- The `book_selected` handler: re-checks `check_availability` and, only
if it passes, calls `create_booking`. -/
def book_selected (s : DBState) (customer_id room_id check_in check_out : Nat) :
    Except BookError (DBState × Nat) :=
  if check_availability s room_id check_in check_out then
    Except.ok (create_booking s customer_id room_id check_in check_out)
  else
    Except.error BookError.RoomUnavailable

/-- Source `record_payment(booking_id, amount, mode)`: inserts a Payments
row and then runs `UPDATE Bookings SET status = 'Confirmed'` for the
booking, both unconditionally. -/
def record_payment (s : DBState) (booking_id : Nat) (amount : Int) (mode : PayMode) :
    DBState :=
  { s with
    payments := s.payments ++ [⟨s.next_payment_id, booking_id, amount, mode⟩],
    bookings := s.bookings.map (fun b =>
      if b.booking_id = booking_id then { b with status := Status.Confirmed } else b),
    next_payment_id := s.next_payment_id + 1 }

/-- Reading the stored status of a booking (None when the id is absent). -/
def get_status (s : DBState) (booking_id : Nat) : Option Status :=
  (s.bookings.find? (fun b => decide (b.booking_id = booking_id))).map (fun b => b.status)

/-- The `update` action of the admin Set Status dialog: a bare
`UPDATE Bookings SET status = ? WHERE booking_id = ?`. -/
def set_status (s : DBState) (booking_id : Nat) (new_status : Status) : DBState :=
  { s with
    bookings := s.bookings.map (fun b =>
      if b.booking_id = booking_id then { b with status := new_status } else b) }

/-- Outcome reported by the cancel flow: an information box in both
cases, never an error. -/
inductive CancelOutcome where
  | alreadyCancelled
  | cancelled
deriving DecidableEq, Repr

/-- The `cancel_booking` handler of My Bookings: when the displayed status
is already Cancelled it only reports Booking is already cancelled and
leaves the table untouched; otherwise it runs
`UPDATE Bookings SET status = 'Cancelled' WHERE booking_id = ?`. -/
def cancel_booking (s : DBState) (booking_id : Nat) : DBState × CancelOutcome :=
  match get_status s booking_id with
  | some Status.Cancelled => (s, CancelOutcome.alreadyCancelled)
  | _ => (set_status s booking_id Status.Cancelled, CancelOutcome.cancelled)

/-- One booking request of the guest flow. -/
structure BookReq where
  customer_id : Nat
  room_id : Nat
  check_in : Nat
  check_out : Nat
deriving DecidableEq, Repr

/-- Running one booking request: a failed request leaves the database
unchanged. -/
def apply_booking (s : DBState) (r : BookReq) : DBState :=
  match book_selected s r.customer_id r.room_id r.check_in r.check_out with
  | Except.ok (s2, _) => s2
  | Except.error _ => s

/-- Running a sequence of booking requests in order. -/
def run_bookings (s : DBState) : List BookReq → DBState
  | [] => s
  | r :: rest => run_bookings (apply_booking s r) rest

/-- Two bookings are compatible unless they are both active, lie on the
same room, and their date ranges overlap. -/
def compatible (b1 b2 : Booking) : Bool :=
  !(decide (b1.room_id = b2.room_id) && is_active b1 && is_active b2 &&
    dates_overlap b1.check_in b1.check_out b2.check_in b2.check_out)

/-- Pairwise compatibility of a list of bookings. -/
def pairwise_ok : List Booking → Bool
  | [] => true
  | b :: rest => rest.all (compatible b) && pairwise_ok rest

/-- The core safety invariant: on every room, the active bookings are
pairwise non-overlapping. -/
def no_overlap_invariant (s : DBState) : Bool :=
  pairwise_ok s.bookings

/-- The database state with the booking of the given id deleted: the
reference point for "a cancelled booking no longer counts". -/
def remove_booking (s : DBState) (booking_id : Nat) : DBState :=
  { s with bookings := s.bookings.filter (fun b => !decide (b.booking_id = booking_id)) }

/-- An empty database (AUTOINCREMENT counters start at 1). -/
def db0 : DBState := ⟨[], [], [], 1, 1⟩

/-- A database holding one Cancelled booking (id 1, room 1, [10,12)). -/
def db_cancelled : DBState := ⟨[], [⟨1, 1, 1, 10, 12, Status.Cancelled⟩], [], 2, 1⟩

/-- A database holding one Pending booking (id 1, room 1, [10,12)). -/
def db_pending : DBState := ⟨[], [⟨1, 1, 1, 10, 12, Status.Pending⟩], [], 2, 1⟩

/-! Theorems -/

/-- C5: `dates_overlap` returns exactly NOT (aEnd <= bStart OR bEnd <= aStart);
adjacent half-open intervals (the end of one equal to the start of the
other) do not overlap, genuinely intersecting intervals do, and the
function is total (it is a Bool-valued function defined on every date
pair). -/
theorem dates_overlap_formula :
    (∀ a b c d : Nat, dates_overlap a b c d = true ↔ ¬(b ≤ c ∨ d ≤ a)) ∧
    (∀ a b c : Nat, dates_overlap a b b c = false ∧ dates_overlap b c a b = false) ∧
    (∀ a b c d : Nat, max a c < min b d → dates_overlap a b c d = true) := by
  refine ⟨?_, ?_, ?_⟩
  · intro a b c d
    simp [dates_overlap]
  · intro a b c
    constructor
    · simp [dates_overlap]
    · simp [dates_overlap]
  · intro a b c d h
    simp [dates_overlap]
    omega

/-- Witness for C5: the boundary examples of the specification, with
dates encoded as day numbers (request [4,6) against booking [5,8)
overlaps). -/
theorem dates_overlap_formula_witness : dates_overlap 4 6 5 8 = true :=
  dates_overlap_formula.2.2 4 6 5 8 (by decide)

/-- C6: `dates_overlap` is symmetric in its two intervals, and every
non-degenerate interval overlaps itself. -/
theorem dates_overlap_symm_refl :
    (∀ a b c d : Nat, dates_overlap a b c d = dates_overlap c d a b) ∧
    (∀ a b : Nat, a < b → dates_overlap a b a b = true) := by
  constructor
  · intro a b c d
    simp [dates_overlap, Bool.or_comm]
  · intro a b h
    simp [dates_overlap]
    omega

/-- Witness for C6: the interval [1,3) overlaps itself. -/
theorem dates_overlap_symm_refl_witness : dates_overlap 1 3 1 3 = true :=
  dates_overlap_symm_refl.2 1 3 (by decide)

/-- C7: `check_availability` consults exactly the bookings of the room
whose status is Pending or Confirmed; it returns true iff none of them
overlaps the requested range, and false iff at least one does. -/
theorem check_availability_spec (s : DBState) (room ci co : Nat) :
    (check_availability s room ci co = true ↔
      ∀ b ∈ s.bookings, b.room_id = room →
        (b.status = Status.Pending ∨ b.status = Status.Confirmed) →
        dates_overlap ci co b.check_in b.check_out = false) ∧
    (check_availability s room ci co = false ↔
      ∃ b ∈ s.bookings, b.room_id = room ∧
        (b.status = Status.Pending ∨ b.status = Status.Confirmed) ∧
        dates_overlap ci co b.check_in b.check_out = true) := by
  have h1 : check_availability s room ci co = true ↔
      ∀ b ∈ s.bookings, b.room_id = room →
        (b.status = Status.Pending ∨ b.status = Status.Confirmed) →
        dates_overlap ci co b.check_in b.check_out = false := by
    simp [check_availability, List.all_eq_true, List.mem_filter, is_active]
    constructor
    · intro hx b hb hroom hst
      rcases hx b hb with h | h | h
      · exact absurd hroom h
      · rcases hst with h2 | h2
        · exact absurd h2 h.1
        · exact absurd h2 h.2
      · exact h
    · intro hx b hb
      by_cases hroom : b.room_id = room
      · by_cases hst : b.status = Status.Pending ∨ b.status = Status.Confirmed
        · exact Or.inr (Or.inr (hx b hb hroom hst))
        · push_neg at hst
          exact Or.inr (Or.inl hst)
      · exact Or.inl hroom
  refine ⟨h1, ?_⟩
  rw [← Bool.not_eq_true, h1]
  push_neg
  simp only [Bool.not_eq_false]

/-- Witness for C7: room 1 of `db_pending` is not available over the
interval of its Pending booking. -/
theorem check_availability_spec_witness : check_availability db_pending 1 10 12 = false :=
  (check_availability_spec db_pending 1 10 12).2.mpr (by decide)

/-- C8: the room-search operation rejects `end <= start` with
InvalidRange; otherwise it returns exactly the rooms that are not under
Maintenance, match the optional type filter, and pass
`check_availability`. -/
theorem search_spec (s : DBState) (ci co : Nat) (rt : Option RoomType) :
    (co ≤ ci → search s ci co rt = Except.error RangeError.InvalidRange) ∧
    (ci < co →
      search s ci co rt = Except.ok (find_available_rooms s ci co rt) ∧
      ∀ r, r ∈ find_available_rooms s ci co rt ↔
        r ∈ s.rooms ∧ r.status ≠ RoomStatus.Maintenance ∧
          room_matches rt r = true ∧ check_availability s r.room_id ci co = true) := by
  constructor
  · intro h
    simp [search, h]
  · intro h
    refine ⟨by simp [search, Nat.not_le.mpr h], ?_⟩
    intro r
    simp [find_available_rooms, List.mem_filter]
    tauto

/-- Witness for C8: searching with check-out before check-in fails with
InvalidRange. -/
theorem search_spec_witness : search db0 5 3 none = Except.error RangeError.InvalidRange :=
  (search_spec db0 5 3 none).1 (by decide)

/-- C2 counterexample: the booking flow performs neither a room-existence
check nor a date-range check. In the empty database no room with id 5
exists, yet booking room 5 succeeds and inserts a Pending booking
instead of failing with NotFound, and a request with check-out before
check-in also succeeds instead of failing with InvalidRange (neither
error exists in the code). -/
theorem book_selected_missing_room_cex :
    db0.rooms = [] ∧
    book_selected db0 1 5 10 12 =
      Except.ok (⟨[], [⟨1, 1, 5, 10, 12, Status.Pending⟩], [], 2, 1⟩, 1) ∧
    book_selected db0 1 5 12 10 =
      Except.ok (⟨[], [⟨1, 1, 5, 12, 10, Status.Pending⟩], [], 2, 1⟩, 1) := by
  exact ⟨rfl, rfl, rfl⟩

/-- C2 amended: the booking flow re-checks `check_availability`
immediately before the insert; when the check passes it inserts a
Pending booking with the requested fields and returns its id, and when
the check fails it fails with RoomUnavailable. It performs no
date-range or room-existence validation of its own. -/
theorem book_selected_spec (s : DBState) (cust room ci co : Nat) :
    (check_availability s room ci co = true →
      book_selected s cust room ci co =
        Except.ok
          ({ s with
              bookings :=
                s.bookings ++ [⟨s.next_booking_id, cust, room, ci, co, Status.Pending⟩],
              next_booking_id := s.next_booking_id + 1 },
            s.next_booking_id)) ∧
    (check_availability s room ci co = false →
      book_selected s cust room ci co = Except.error BookError.RoomUnavailable) := by
  constructor <;> intro h <;> simp [book_selected, create_booking, h]

/-- Witness for the amended C2: booking room 1 of `db_cancelled` (its
only booking is Cancelled, so the room is available) inserts a Pending
booking. -/
theorem book_selected_spec_witness :
    book_selected db_cancelled 2 1 10 12 =
      Except.ok
        (⟨[], [⟨1, 1, 1, 10, 12, Status.Cancelled⟩, ⟨2, 2, 1, 10, 12, Status.Pending⟩],
          [], 3, 1⟩, 2) :=
  (book_selected_spec db_cancelled 2 1 10 12).1 (by decide)

/-- Helper: after the SQL update that rewrites the status of every row
with the given booking id, looking the booking up yields the new status
exactly when the booking was present before. -/
theorem find_status_map_update (l : List Booking) (bid : Nat) (st : Status) :
    ((l.map (fun b => if b.booking_id = bid then { b with status := st } else b)).find?
        (fun b => decide (b.booking_id = bid))).map (fun b => b.status)
      = (((l.find? (fun b => decide (b.booking_id = bid))).map (fun b => b.status)).map
          (fun _ => st)) := by
  induction l with
  | nil => rfl
  | cons b rest ih =>
    rw [List.map_cons]
    by_cases h : b.booking_id = bid
    · rw [if_pos h, List.find?_cons_of_pos _ (by simp [h]),
        List.find?_cons_of_pos _ (by simp [h])]
      rfl
    · rw [if_neg h, List.find?_cons_of_neg _ (by simp [h]),
        List.find?_cons_of_neg _ (by simp [h])]
      exact ih

/-- Helper: the same SQL update leaves the lookup of every other booking
id unchanged. -/
theorem find_status_map_update_other (l : List Booking) (bid target : Nat) (st : Status)
    (h : target ≠ bid) :
    (l.map (fun b => if b.booking_id = bid then { b with status := st } else b)).find?
        (fun b => decide (b.booking_id = target))
      = l.find? (fun b => decide (b.booking_id = target)) := by
  induction l with
  | nil => rfl
  | cons b rest ih =>
    rw [List.map_cons]
    by_cases hb : b.booking_id = bid
    · have hbt : ¬b.booking_id = target := fun he => h (he.symm.trans hb)
      rw [if_pos hb, List.find?_cons_of_neg _ (by simp [hbt]),
        List.find?_cons_of_neg _ (by simp [hbt])]
      exact ih
    · rw [if_neg hb]
      by_cases ht : b.booking_id = target
      · rw [List.find?_cons_of_pos _ (by simp [ht]), List.find?_cons_of_pos _ (by simp [ht])]
      · rw [List.find?_cons_of_neg _ (by simp [ht]), List.find?_cons_of_neg _ (by simp [ht])]
        exact ih

/-- Helper: the status seen after `record_payment` is Confirmed whenever
the booking exists, untouched otherwise. -/
theorem get_status_record_payment (s : DBState) (bid : Nat) (amt : Int) (m : PayMode) :
    get_status (record_payment s bid amt m) bid =
      (get_status s bid).map (fun _ => Status.Confirmed) := by
  simpa [get_status, record_payment] using
    find_status_map_update s.bookings bid Status.Confirmed

/-- C3 counterexample: the admin status update has no transition guard.
On a booking whose status is Cancelled, setting the status to Pending
succeeds and stores Pending, instead of failing with InvalidTransition
(no such error exists in the code). -/
theorem set_status_unrestricted_cex :
    get_status db_cancelled 1 = some Status.Cancelled ∧
    get_status (set_status db_cancelled 1 Status.Pending) 1 = some Status.Pending := by
  exact ⟨rfl, rfl⟩

/-- C3 amended: `set_status` writes the requested status unconditionally:
whatever the current status (including Completed and Cancelled), the
booking afterwards carries exactly the requested status, every
transition succeeds, and other bookings are untouched. -/
theorem set_status_spec (s : DBState) (bid : Nat) (st : Status) :
    get_status (set_status s bid st) bid = (get_status s bid).map (fun _ => st) ∧
    ∀ other, other ≠ bid → get_status (set_status s bid st) other = get_status s other := by
  constructor
  · simpa [get_status, set_status] using find_status_map_update s.bookings bid st
  · intro other h
    simp [get_status, set_status, find_status_map_update_other s.bookings bid other st h]

/-- Witness for the amended C3: updating booking 1 does not disturb the
lookup of booking 2. -/
theorem set_status_spec_witness :
    get_status (set_status db_cancelled 1 Status.Completed) 2 = get_status db_cancelled 2 :=
  (set_status_spec db_cancelled 1 Status.Completed).2 2 (by decide)

/-- C4 counterexample: `record_payment` validates nothing. On a Cancelled
booking and with amount 0, it appends the payment row and even flips
the Cancelled booking to Confirmed, instead of failing with
InvalidAmount or BookingCancelled (no such errors exist in the code). -/
theorem record_payment_no_validation_cex :
    get_status db_cancelled 1 = some Status.Cancelled ∧
    (record_payment db_cancelled 1 0 PayMode.Card).payments = [⟨1, 1, 0, PayMode.Card⟩] ∧
    get_status (record_payment db_cancelled 1 0 PayMode.Card) 1 = some Status.Confirmed := by
  exact ⟨rfl, rfl, rfl⟩

/-- C4 amended: `record_payment` performs no validation at all: for every
amount (positive or not) and every booking id (unknown, Cancelled or
not), it appends the payment row and sets the status of the booking
with that id, when present, to Confirmed; other bookings are
untouched. -/
theorem record_payment_spec (s : DBState) (bid : Nat) (amt : Int) (mode : PayMode) :
    (record_payment s bid amt mode).payments =
      s.payments ++ [⟨s.next_payment_id, bid, amt, mode⟩] ∧
    get_status (record_payment s bid amt mode) bid =
      (get_status s bid).map (fun _ => Status.Confirmed) ∧
    ∀ other, other ≠ bid →
      get_status (record_payment s bid amt mode) other = get_status s other := by
  refine ⟨rfl, get_status_record_payment s bid amt mode, ?_⟩
  intro other h
  simp [get_status, record_payment,
    find_status_map_update_other s.bookings bid other Status.Confirmed h]

/-- Witness for the amended C4: paying booking 1 does not disturb the
lookup of booking 2. -/
theorem record_payment_spec_witness :
    get_status (record_payment db_pending 1 4500 PayMode.Card) 2 = get_status db_pending 2 :=
  (record_payment_spec db_pending 1 4500 PayMode.Card).2.2 2 (by decide)

/-- C9: a payment on a Pending booking moves it to Confirmed, and a
second payment on the same booking leaves it Confirmed: repeat
payments neither double-transition nor regress the status. -/
theorem record_payment_idempotent (s : DBState) (bid : Nat) (a1 a2 : Int)
    (m1 m2 : PayMode) (h : get_status s bid = some Status.Pending) :
    get_status (record_payment s bid a1 m1) bid = some Status.Confirmed ∧
    get_status (record_payment (record_payment s bid a1 m1) bid a2 m2) bid =
      some Status.Confirmed := by
  have h1 : get_status (record_payment s bid a1 m1) bid = some Status.Confirmed := by
    rw [get_status_record_payment, h]
    rfl
  have h2 : get_status (record_payment (record_payment s bid a1 m1) bid a2 m2) bid
      = some Status.Confirmed := by
    rw [get_status_record_payment, h1]
    rfl
  exact ⟨h1, h2⟩

/-- Witness for C9: two payments on the Pending booking of `db_pending`
leave it Confirmed. -/
theorem record_payment_idempotent_witness :
    get_status (record_payment (record_payment db_pending 1 4500 PayMode.Card)
      1 4500 PayMode.UPI) 1 = some Status.Confirmed :=
  (record_payment_idempotent db_pending 1 4500 4500 PayMode.Card PayMode.UPI (by rfl)).2

/-- Helper: cancelling by the SQL update removes all rows with the given
id from the active set of every room: filtering for a room and active
status gives the same rows as first deleting the booking. -/
theorem filter_active_map_cancel (l : List Booking) (bid room : Nat) :
    ((l.map (fun b => if b.booking_id = bid then { b with status := Status.Cancelled } else b)).filter
        (fun b => decide (b.room_id = room) && is_active b))
      = ((l.filter (fun b => !decide (b.booking_id = bid))).filter
          (fun b => decide (b.room_id = room) && is_active b)) := by
  induction l with
  | nil => rfl
  | cons b rest ih =>
    simp only [List.map_cons, List.filter_cons]
    by_cases h : b.booking_id = bid
    · rw [if_pos h]
      have e2 : ¬((decide (({ b with status := Status.Cancelled } : Booking).room_id = room) &&
          is_active { b with status := Status.Cancelled }) = true) := by
        simp [is_active]
      rw [if_neg e2]
      have e3 : ¬((!decide (b.booking_id = bid)) = true) := by simp [h]
      rw [if_neg e3]
      exact ih
    · rw [if_neg h]
      have e3 : ((!decide (b.booking_id = bid)) = true) := by simp [h]
      rw [if_pos e3, List.filter_cons]
      by_cases hp : (decide (b.room_id = room) && is_active b) = true
      · rw [if_pos hp, if_pos hp, ih]
      · rw [if_neg hp, if_neg hp]
        exact ih

/-- Helper: when every row carrying the given id is already Cancelled,
the active set of every room is the same as after deleting the
booking. -/
theorem filter_active_already_cancelled (l : List Booking) (bid room : Nat)
    (hc : ∀ b ∈ l, b.booking_id = bid → b.status = Status.Cancelled) :
    (l.filter (fun b => decide (b.room_id = room) && is_active b))
      = ((l.filter (fun b => !decide (b.booking_id = bid))).filter
          (fun b => decide (b.room_id = room) && is_active b)) := by
  revert hc
  induction l with
  | nil =>
    intro hc
    rfl
  | cons b rest ih =>
    intro hc
    have hrest : ∀ x ∈ rest, x.booking_id = bid → x.status = Status.Cancelled :=
      fun x hx => hc x (List.mem_cons_of_mem _ hx)
    simp only [List.filter_cons]
    by_cases h : b.booking_id = bid
    · have hcb : b.status = Status.Cancelled := hc b (List.mem_cons_self _ _) h
      have e2 : ¬((decide (b.room_id = room) && is_active b) = true) := by
        simp [is_active, hcb]
      rw [if_neg e2]
      have e3 : ¬((!decide (b.booking_id = bid)) = true) := by simp [h]
      rw [if_neg e3]
      exact ih hrest
    · have e3 : ((!decide (b.booking_id = bid)) = true) := by simp [h]
      rw [if_pos e3, List.filter_cons]
      by_cases hp : (decide (b.room_id = room) && is_active b) = true
      · rw [if_pos hp, if_pos hp, ih hrest]
      · rw [if_neg hp, if_neg hp]
        exact ih hrest

/-- Helper: when booking ids are unique (the PRIMARY KEY of the Bookings
table) and the stored status of the id is Cancelled, every row carrying
that id is Cancelled. -/
theorem all_cancelled_of_get_status (s : DBState) (bid : Nat)
    (hn : (s.bookings.map (fun b => b.booking_id)).Nodup)
    (h : get_status s bid = some Status.Cancelled) :
    ∀ b ∈ s.bookings, b.booking_id = bid → b.status = Status.Cancelled := by
  intro b hb hid
  unfold get_status at h
  obtain ⟨b0, hfind, hstat⟩ := Option.map_eq_some'.mp h
  have hb0mem : b0 ∈ s.bookings := List.mem_of_find?_eq_some hfind
  have hb0id : b0.booking_id = bid := by
    have := List.find?_some hfind
    simpa using this
  have hbb0 : b = b0 :=
    List.inj_on_of_nodup_map hn hb hb0mem (by rw [hid, hb0id])
  rw [hbb0, hstat]

/-- C10: assuming unique booking ids (the PRIMARY KEY of the table),
cancelling an already Cancelled booking is a reported no-op that leaves
the database unchanged, and after any cancel the booking contributes
nothing to overlap checks: `check_availability` and
`find_available_rooms` behave exactly as if the booking had been
deleted, with no additional action. -/
theorem cancel_booking_spec (s : DBState) (bid : Nat)
    (hn : (s.bookings.map (fun b => b.booking_id)).Nodup) :
    (get_status s bid = some Status.Cancelled →
      cancel_booking s bid = (s, CancelOutcome.alreadyCancelled)) ∧
    ((cancel_booking s bid).1.rooms = s.rooms) ∧
    (∀ room ci co, check_availability (cancel_booking s bid).1 room ci co =
        check_availability (remove_booking s bid) room ci co) ∧
    (∀ ci co rt, find_available_rooms (cancel_booking s bid).1 ci co rt =
        find_available_rooms (remove_booking s bid) ci co rt) := by
  have hrooms : (cancel_booking s bid).1.rooms = s.rooms := by
    unfold cancel_booking
    split
    · rfl
    · rfl
  have hca : ∀ room ci co, check_availability (cancel_booking s bid).1 room ci co =
      check_availability (remove_booking s bid) room ci co := by
    intro room ci co
    unfold cancel_booking
    split
    · rename_i hst
      unfold check_availability remove_booking
      simp only
      rw [filter_active_already_cancelled s.bookings bid room
        (all_cancelled_of_get_status s bid hn hst)]
    · unfold check_availability remove_booking set_status
      simp only
      rw [filter_active_map_cancel s.bookings bid room]
  refine ⟨?_, hrooms, hca, ?_⟩
  · intro h
    unfold cancel_booking
    rw [h]
  · intro ci co rt
    unfold find_available_rooms
    rw [hrooms]
    have : (remove_booking s bid).rooms = s.rooms := rfl
    rw [this]
    apply List.filter_congr
    intro r hr
    rw [hca r.room_id ci co]

/-- Witness for C10: cancelling the already Cancelled booking of
`db_cancelled` is a reported no-op. -/
theorem cancel_booking_spec_witness :
    cancel_booking db_cancelled 1 = (db_cancelled, CancelOutcome.alreadyCancelled) :=
  (cancel_booking_spec db_cancelled 1 (by decide)).1 (by rfl)

/-- Helper: symmetry of the overlap test (used to flip the direction of
the availability check). -/
theorem dates_overlap_comm (a b c d : Nat) :
    dates_overlap a b c d = dates_overlap c d a b := by
  simp [dates_overlap, Bool.or_comm]

/-- Helper: appending one booking keeps the list pairwise compatible iff
the list was and the new booking is compatible with every old one. -/
theorem pairwise_ok_append (l : List Booking) (b : Booking) :
    pairwise_ok (l ++ [b]) = true ↔
      (pairwise_ok l = true ∧ ∀ a ∈ l, compatible a b = true) := by
  induction l with
  | nil => simp [pairwise_ok]
  | cons x rest ih =>
    rw [List.cons_append]
    simp only [pairwise_ok, Bool.and_eq_true, List.all_eq_true, List.mem_append,
      List.mem_cons, List.mem_nil_iff, or_false, ih]
    constructor
    · rintro ⟨h1, h2, h3⟩
      refine ⟨⟨fun y hy => h1 y (Or.inl hy), h2⟩, ?_⟩
      intro a ha
      rcases ha with rfl | ha
      · exact h1 _ (Or.inr rfl)
      · exact h3 a ha
    · rintro ⟨⟨h1, h2⟩, h3⟩
      refine ⟨?_, h2, fun a ha => h3 a (Or.inr ha)⟩
      intro y hy
      rcases hy with hy | rfl
      · exact h1 y hy
      · exact h3 _ (Or.inl rfl)

/-- Helper: when the availability re-check passes, the freshly inserted
Pending booking is compatible with every stored booking. -/
theorem compatible_of_check (s : DBState) (room ci co bid cust : Nat)
    (h : check_availability s room ci co = true) :
    ∀ a ∈ s.bookings, compatible a ⟨bid, cust, room, ci, co, Status.Pending⟩ = true := by
  have hmain : ∀ x ∈ s.bookings, x.room_id = room → is_active x = true →
      dates_overlap ci co x.check_in x.check_out = false := by
    intro x hx h1 h2
    simp only [check_availability, List.all_eq_true, List.mem_filter,
      Bool.and_eq_true, decide_eq_true_eq, Bool.not_eq_true'] at h
    exact h x ⟨hx, h1, h2⟩
  have hnb : is_active ⟨bid, cust, room, ci, co, Status.Pending⟩ = true := by
    simp [is_active]
  intro a ha
  unfold compatible
  by_cases hroom : a.room_id = room
  · by_cases hact : is_active a = true
    · have hov := hmain a ha hroom hact
      rw [dates_overlap_comm] at hov
      simp [hroom, hact, hov, hnb]
    · have hact2 : is_active a = false := by simpa using hact
      simp [hact2]
  · simp [hroom]

/-- Helper: a single booking request keeps the no-overlap invariant: a
rejected request leaves the database unchanged, and an accepted one
passed the availability re-check. -/
theorem apply_booking_invariant (s : DBState) (r : BookReq)
    (h : no_overlap_invariant s = true) :
    no_overlap_invariant (apply_booking s r) = true := by
  unfold apply_booking book_selected
  by_cases hc : check_availability s r.room_id r.check_in r.check_out = true
  · rw [if_pos hc]
    simp only [create_booking, no_overlap_invariant]
    rw [pairwise_ok_append]
    exact ⟨h, compatible_of_check s r.room_id r.check_in r.check_out
      s.next_booking_id r.customer_id hc⟩
  · rw [if_neg hc]
    exact h

/-- C1: the no-overlap invariant of active bookings (per room, statuses
Pending and Confirmed, half-open date ranges) is preserved by every
sequence of booking requests run through the guest booking flow. -/
theorem no_overlap_preserved (s : DBState) (reqs : List BookReq)
    (h : no_overlap_invariant s = true) :
    no_overlap_invariant (run_bookings s reqs) = true := by
  induction reqs generalizing s with
  | nil => exact h
  | cons r rest ih => exact ih (apply_booking s r) (apply_booking_invariant s r h)

/-- Witness for C1: three requests on room 1 starting from the empty
database (the second one overlapping, hence rejected) end in a state
satisfying the invariant. -/
theorem no_overlap_preserved_witness :
    no_overlap_invariant
      (run_bookings db0 [⟨1, 1, 10, 12⟩, ⟨2, 1, 11, 13⟩, ⟨3, 1, 12, 14⟩]) = true :=
  no_overlap_preserved db0 [⟨1, 1, 10, 12⟩, ⟨2, 1, 11, 13⟩, ⟨3, 1, 12, 14⟩] (by decide)

end Hotel
